import Mathlib

/-!
Shallow embedding of the Travel Data Aggregator API
(`src/blog/backend-api/main.py`), a FastAPI service that aggregates
country metadata, geocoding and weather data from public upstream APIs.

Upstream HTTP responses are modelled explicitly: each client function
takes an "upstream" value (or a function from the request key to such a
value) describing what the external service answers, and returns
`Except HTTPException _` mirroring FastAPI's `HTTPException` raising.
Python strings are modelled as `String`; `str.lower`/`str.upper`/
`str.strip` are modelled character-wise over the string's character
list; Python's substring test `needle in hay` is modelled by `strIn`.
Floats (temperatures, wind speeds, coordinates) are modelled as `ℚ`.
-/

/-- Python `str.lower()` (character-wise, as for the ASCII data used here). -/
def strLower (s : String) : String := String.mk (s.toList.map Char.toLower)

/-- Python `str.upper()` (character-wise, as for the ASCII data used here). -/
def strUpper (s : String) : String := String.mk (s.toList.map Char.toUpper)

/-- Python `str.strip()`: drop whitespace from both ends. -/
def strStrip (s : String) : String :=
  String.mk (((s.toList.dropWhile Char.isWhitespace).reverse.dropWhile
    Char.isWhitespace).reverse)

/-- Substring test on character lists: `hasSub needle hay` is true iff
`needle` occurs contiguously in `hay` (Python `needle in hay`). -/
def hasSub (needle : List Char) : List Char → Bool
  | [] => needle.isEmpty
  | c :: t => needle.isPrefixOf (c :: t) || hasSub needle t

/-- Python `needle in hay` for strings. -/
def strIn (needle hay : String) : Bool := hasSub needle.toList hay.toList

/-- Python `sep.join(parts)`. -/
def pyJoin (sep : String) : List String → String
  | [] => ""
  | [x] => x
  | x :: y :: t => x ++ sep ++ pyJoin sep (y :: t)

/-- Pydantic model `Weather` (main.py lines 28-33). -/
structure Weather where
  location : String
  temperature_celsius : ℚ
  weather_description : String
  humidity : Int
  wind_speed_kmh : ℚ
  deriving DecidableEq

/-- Pydantic model `Destination` (main.py lines 19-26). -/
structure Destination where
  country_code : String
  country_name : String
  capital : String
  region : String
  population : Int
  currencies : List String
  languages : List String
  deriving DecidableEq

/-- Pydantic model `TravelSummary` (main.py lines 35-45). -/
structure TravelSummary where
  country_code : String
  country_name : String
  capital : String
  region : String
  population : Int
  currencies : List String
  languages : List String
  current_weather : Weather
  travel_tips : List String
  best_time_to_visit : String
  deriving DecidableEq

/-- FastAPI `HTTPException` as raised by the handlers: a status code and a
detail message. -/
structure HTTPException where
  status_code : Nat
  detail : String
  deriving DecidableEq

/-- Raw JSON record of one country as returned by the REST Countries API,
restricted to the fields the code reads; `none` models an absent key and
`some []` an empty (falsy) value. `currencies` holds the dict's keys and
`languages` the dict's values, in iteration order. -/
structure RawCountry where
  cca2 : Option String
  common_name : Option String
  capital : Option (List String)
  region : Option String
  population : Option Int
  currencies : Option (List String)
  languages : Option (List String)
  deriving DecidableEq

/-- Capital extraction (main.py lines 103 and 180):
`country.get("capital", ["N/A"])[0] if country.get("capital") else "N/A"`. -/
def extract_capital : Option (List String) → String
  | none => "N/A"
  | some [] => "N/A"
  | some (x :: _) => x

/-- Currency/language extraction (main.py lines 101-102 and 178-179):
`list(d.keys()) if d else ["N/A"]` — a missing or empty (falsy) field
becomes the placeholder `["N/A"]`. -/
def extract_list : Option (List String) → List String
  | none => ["N/A"]
  | some [] => ["N/A"]
  | some (x :: t) => x :: t

/-- Construction of a `Destination` from a raw country record, shared
verbatim by `get_destinations` (main.py lines 100-113) and
`get_destination_info` (lines 178-190). -/
def mk_destination (c : RawCountry) : Destination :=
  { country_code := c.cca2.getD ""
    country_name := c.common_name.getD "Unknown"
    capital := extract_capital c.capital
    region := c.region.getD "Unknown"
    population := c.population.getD 0
    currencies := extract_list c.currencies
    languages := extract_list c.languages }

/-- Response of the REST Countries batched `/alpha?codes=` call used by
`get_destinations`. -/
inductive BatchUpstream where
  | httpError (msg : String)
  | ok (data : List RawCountry)
  deriving DecidableEq

/-- Response of the REST Countries single `/alpha/{code}` call used by
`get_destination_info`: a 404 status error, another transport/HTTP error,
or a record (a list response is collapsed to its first element, as the
code does with `country_data[0]`). -/
inductive CountryUpstream where
  | notFound
  | httpError (msg : String)
  | ok (data : RawCountry)
  deriving DecidableEq

/-- Response of the geocoding `/search` call: a transport/HTTP error
(whose detail the client discards) or a result list of (latitude,
longitude) pairs. -/
inductive GeoUpstream where
  | httpError
  | ok (results : List (ℚ × ℚ))
  deriving DecidableEq

/-- Raw `current` object of the Open-Meteo forecast response, restricted
to the fields the code reads; `none` models an absent key. -/
structure RawCurrent where
  temperature_2m : Option ℚ
  relative_humidity_2m : Option Int
  weather_code : Option Nat
  wind_speed_10m : Option ℚ
  deriving DecidableEq

/-- Response of the Open-Meteo `/forecast` call: a transport/HTTP error or
a body whose `current` object may itself be absent. -/
inductive WeatherUpstream where
  | httpError (msg : String)
  | ok (current : Option RawCurrent)
  deriving DecidableEq

/-- The fixed popular-destination codes (main.py line 86). -/
def popular_codes : List String :=
  ["JP", "FR", "IT", "ES", "TH", "AU", "GB", "DE", "NZ", "CA"]

/-- Handler `get_destinations` (main.py lines 80-115): one batched
REST Countries call for `popular_codes`; 503 on HTTP error, otherwise
each raw record is mapped to a `Destination`. -/
def get_destinations (env : BatchUpstream) : Except HTTPException (List Destination) :=
  match env with
  | .httpError msg => .error ⟨503, "Failed to fetch country data: " ++ msg⟩
  | .ok data => .ok (data.map mk_destination)

/-- Handler `get_destination_info` (main.py lines 158-190): requests
`/alpha/{country_code.upper()}` (the upstream environment is keyed by the
uppercased code in the URL); 404 from upstream becomes a 404 with the
given code in the message, any other HTTP error becomes a 503. -/
def get_destination_info (country_code : String)
    (env : String → CountryUpstream) : Except HTTPException Destination :=
  match env (strUpper country_code) with
  | .notFound => .error ⟨404, "Country " ++ country_code ++ " not found"⟩
  | .httpError msg => .error ⟨503, "Failed to fetch country data: " ++ msg⟩
  | .ok data => .ok (mk_destination data)

/-- Helper `get_coordinates` (main.py lines 193-208): the geocoding
request carries only the city name (`country_code` is accepted but never
sent); an HTTP error is swallowed and an empty or absent result list is
falsy, both yielding `none` (Python `(None, None)`); otherwise the first
result's coordinates. -/
def get_coordinates (city : String) (country_code : String)
    (env : String → GeoUpstream) : Option (ℚ × ℚ) :=
  match env city with
  | .httpError => none
  | .ok [] => none
  | .ok (r :: _) => some r

/-- The weather-code translation table of `get_weather_for_location`
(main.py lines 227-233), in source order. -/
def weather_codes : List (Nat × String) :=
  [(0, "Clear sky"), (1, "Mainly clear"), (2, "Partly cloudy"), (3, "Overcast"),
   (45, "Foggy"), (48, "Depositing rime fog"), (51, "Light drizzle"),
   (53, "Moderate drizzle"), (55, "Dense drizzle"), (61, "Slight rain"),
   (63, "Moderate rain"), (65, "Heavy rain"), (71, "Slight snow"),
   (73, "Moderate snow"), (75, "Heavy snow"), (80, "Slight rain showers"),
   (81, "Moderate rain showers"), (82, "Violent rain showers"),
   (95, "Thunderstorm")]

/-- Python `weather_codes.get(code, "Unknown")` (main.py line 239). -/
def describe_weather_code (code : Nat) : String :=
  (List.lookup code weather_codes).getD "Unknown"

/-- Helper `get_weather_for_location` (main.py lines 211-244): 503 on
HTTP error; otherwise `data.get("current", {})` defaults an absent
current object to empty, and each field defaults to 0 when absent, the
weather code being translated through `weather_codes`. -/
def get_weather_for_location (lat lon : ℚ) (location_name : String)
    (env : WeatherUpstream) : Except HTTPException Weather :=
  match env with
  | .httpError msg => .error ⟨503, "Failed to fetch weather data: " ++ msg⟩
  | .ok ocurrent =>
    let current := ocurrent.getD ⟨none, none, none, none⟩
    let weather_code := current.weather_code.getD 0
    .ok { location := location_name
          temperature_celsius := current.temperature_2m.getD 0
          weather_description := describe_weather_code weather_code
          humidity := current.relative_humidity_2m.getD 0
          wind_speed_kmh := current.wind_speed_10m.getD 0 }

/-- The region-tip table of `generate_travel_tips` (main.py lines 263-269). -/
def region_tips : List (String × String) :=
  [("Europe", "Consider getting a travel adapter for EU plugs"),
   ("Asia", "Learn a few local phrases - it's appreciated!"),
   ("Oceania", "Don't forget reef-safe sunscreen for beach visits"),
   ("Americas", "Check visa requirements before traveling"),
   ("Africa", "Consult a travel health clinic for vaccinations")]

/-- Pure function `generate_travel_tips` (main.py lines 247-275),
translated append-by-append in source order. -/
def generate_travel_tips (country_name region : String) (weather : Weather) :
    List String :=
  let tips : List String := []
  let tips :=
    if weather.temperature_celsius > 30 then
      (tips ++ ["Pack light, breathable clothing - it's hot!"]) ++
        ["Stay hydrated and use sunscreen"]
    else if weather.temperature_celsius < 10 then
      (tips ++ ["Bring warm layers - it's cold!"]) ++
        ["Pack a good jacket and warm accessories"]
    else
      tips ++ ["Weather is mild - pack versatile clothing"]
  let tips :=
    if strIn "rain" (strLower weather.weather_description) ||
       strIn "drizzle" (strLower weather.weather_description) then
      tips ++ ["Bring an umbrella or rain jacket"]
    else tips
  let tips :=
    match List.lookup region region_tips with
    | some t => tips ++ [t]
    | none => tips
  tips ++ ["Research local customs and etiquette for " ++ country_name]

/-- The best-time table of `get_best_time_to_visit` (main.py lines 280-291). -/
def best_times : List (String × String) :=
  [("JP", "March-May (cherry blossoms) or October-November (autumn colors)"),
   ("FR", "April-June or September-October for mild weather"),
   ("IT", "April-June or September-October to avoid crowds"),
   ("ES", "March-May or September-November for pleasant weather"),
   ("TH", "November-February (cool and dry season)"),
   ("AU", "September-November (spring) or March-May (autumn)"),
   ("GB", "May-September for warmer weather"),
   ("DE", "May-September for outdoor activities"),
   ("NZ", "December-February (summer) for best weather"),
   ("CA", "June-August for summer, December-March for skiing")]

/-- Pure function `get_best_time_to_visit` (main.py lines 278-292):
`best_times.get(country_code, f"Research the best season for {region}")`. -/
def get_best_time_to_visit (region country_code : String) : String :=
  (List.lookup country_code best_times).getD
    ("Research the best season for " ++ region)

/-- The upstream environment of one request: what each external service
answers to the calls this request issues. `countries` is keyed by the
(uppercased) code in the `/alpha/{code}` URL, `geocode` by the city name
sent to the geocoding search. -/
structure Env where
  countries : String → CountryUpstream
  popular : BatchUpstream
  geocode : String → GeoUpstream
  weather : WeatherUpstream

/-- The aggregation pipeline shared verbatim by the tails of
`get_travel_summary` (main.py lines 370-402) and
`get_travel_summary_by_name` (lines 323-355): fetch country info for
`country_code`, geocode the capital (503 with a generic message when
absent), fetch weather, generate tips and best time, assemble the
summary. -/
def travel_pipeline (country_code : String) (env : Env) :
    Except HTTPException TravelSummary :=
  match get_destination_info country_code env.countries with
  | .error e => .error e
  | .ok destination =>
    match get_coordinates destination.capital country_code env.geocode with
    | none => .error ⟨503, "Could not find coordinates for " ++ destination.capital⟩
    | some (lat, lon) =>
      match get_weather_for_location lat lon destination.capital env.weather with
      | .error e => .error e
      | .ok weather =>
        .ok { country_code := destination.country_code
              country_name := destination.country_name
              capital := destination.capital
              region := destination.region
              population := destination.population
              currencies := destination.currencies
              languages := destination.languages
              current_weather := weather
              travel_tips := generate_travel_tips destination.country_name
                destination.region weather
              best_time_to_visit := get_best_time_to_visit destination.region
                country_code }

/-- Handler `get_travel_summary` (main.py lines 358-402): a missing or
empty (falsy) `country_code` is a 400 before any upstream call; otherwise
the code is uppercased and the pipeline runs. -/
def get_travel_summary (country_code : Option String) (env : Env) :
    Except HTTPException TravelSummary :=
  match country_code with
  | none => .error ⟨400, "country_code is required"⟩
  | some cc =>
    if cc = "" then .error ⟨400, "country_code is required"⟩
    else travel_pipeline (strUpper cc) env

/-- The case-insensitive either-direction substring match of
`get_travel_summary_by_name` (main.py line 311):
`q.lower() in n.lower() or n.lower() in q.lower()`. -/
def name_matches (query dest_name : String) : Bool :=
  strIn (strLower query) (strLower dest_name) ||
    strIn (strLower dest_name) (strLower query)

/-- Handler `get_travel_summary_by_name` (main.py lines 295-355): strips
the requested name, lists the popular destinations, takes the first one
matching by `name_matches` (404 listing the first 5 names on a miss),
then runs the same pipeline with the matched destination's code. -/
def get_travel_summary_by_name (request : String) (env : Env) :
    Except HTTPException TravelSummary :=
  let country_name := strStrip request
  match get_destinations env.popular with
  | .error e => .error e
  | .ok destinations =>
    match destinations.find? (fun d => name_matches country_name d.country_name) with
    | none =>
      .error ⟨404, "Country '" ++ country_name ++
        "' not found in destinations. Available countries: " ++
        pyJoin ", " ((destinations.take 5).map (fun d => d.country_name)) ++ "..."⟩
    | some matching_country => travel_pipeline matching_country.country_code env

/-- C1: for every input, `generate_travel_tips` returns exactly the
concatenation, in this order, of (a) one temperature-band group (two heat
tips if temperature > 30, two cold tips if temperature < 10, else one
mild tip), (b) the umbrella tip iff the description contains "rain" or
"drizzle" case-insensitively, (c) the region's tip iff the region exactly
matches a key of the five-entry region table, (d) always, last, the
generic customs tip parameterized by the country name; in particular for
temperature 5, description "Slight rain", region "Asia", country "Japan"
the output is both cold tips, the umbrella tip, the Asia tip and the
generic tip, in that order. -/
theorem travel_tips_structure :
    (∀ (cn rg : String) (w : Weather),
      generate_travel_tips cn rg w =
        (if w.temperature_celsius > 30 then
          ["Pack light, breathable clothing - it's hot!",
           "Stay hydrated and use sunscreen"]
         else if w.temperature_celsius < 10 then
          ["Bring warm layers - it's cold!",
           "Pack a good jacket and warm accessories"]
         else ["Weather is mild - pack versatile clothing"]) ++
        (if strIn "rain" (strLower w.weather_description) ||
            strIn "drizzle" (strLower w.weather_description) then
          ["Bring an umbrella or rain jacket"]
         else []) ++
        (match List.lookup rg region_tips with
         | some t => [t]
         | none => []) ++
        ["Research local customs and etiquette for " ++ cn]) ∧
    generate_travel_tips "Japan" "Asia"
      { location := "Tokyo", temperature_celsius := 5,
        weather_description := "Slight rain", humidity := 80,
        wind_speed_kmh := 10 } =
      ["Bring warm layers - it's cold!",
       "Pack a good jacket and warm accessories",
       "Bring an umbrella or rain jacket",
       "Learn a few local phrases - it's appreciated!",
       "Research local customs and etiquette for Japan"] := by
  refine ⟨fun cn rg w => ?_, by decide⟩
  unfold generate_travel_tips
  rcases h4 : List.lookup rg region_tips with _ | t <;>
  by_cases h1 : w.temperature_celsius > 30 <;>
  by_cases h2 : w.temperature_celsius < 10 <;>
  by_cases h3 : (strIn "rain" (strLower w.weather_description) ||
    strIn "drizzle" (strLower w.weather_description)) = true <;>
  simp [h1, h2, h3, h4]

/-- C2 counterexample: the weather-code translation table does not have
exactly 16 entries (it has 19). -/
theorem weather_codes_not_sixteen : ¬ (weather_codes.length = 16) := by decide

/-- C2 (amended): the weather-code translation table is a fixed table of
exactly 19 entries; code 0 maps to "Clear sky", and every code absent
from the table (e.g. 99) maps to "Unknown". -/
theorem weather_codes_table_spec :
    weather_codes.length = 19 ∧
    describe_weather_code 0 = "Clear sky" ∧
    (∀ c : Nat, List.lookup c weather_codes = none →
      describe_weather_code c = "Unknown") := by
  refine ⟨rfl, rfl, fun c hc => ?_⟩
  simp [describe_weather_code, hc]

/-- C2 witness: code 99 is absent from the table and maps to "Unknown". -/
theorem weather_codes_table_spec_witness :
    List.lookup 99 weather_codes = none ∧
    describe_weather_code 99 = "Unknown" :=
  ⟨by decide, weather_codes_table_spec.2.2 99 (by decide)⟩

/-- C5: for each country code stored in the 10-entry best-time table,
`get_best_time_to_visit` returns the exact literal stored for that code
regardless of the region argument; for every code absent from the table
it returns exactly "Research the best season for {region}". -/
theorem best_time_to_visit_spec :
    best_times.map Prod.fst =
      ["JP", "FR", "IT", "ES", "TH", "AU", "GB", "DE", "NZ", "CA"] ∧
    (∀ (region code s : String), List.lookup code best_times = some s →
      get_best_time_to_visit region code = s) ∧
    (∀ (region code : String), List.lookup code best_times = none →
      get_best_time_to_visit region code =
        "Research the best season for " ++ region) := by
  refine ⟨rfl, fun region code s h => ?_, fun region code h => ?_⟩ <;>
  simp [get_best_time_to_visit, h]

/-- C5 witness: the stored literal for "JP" is returned for two different
regions, and an absent code "XX" falls back to the templated string. -/
theorem best_time_to_visit_spec_witness :
    get_best_time_to_visit "Asia" "JP" =
      "March-May (cherry blossoms) or October-November (autumn colors)" ∧
    get_best_time_to_visit "Europe" "JP" =
      "March-May (cherry blossoms) or October-November (autumn colors)" ∧
    get_best_time_to_visit "Asia" "XX" = "Research the best season for Asia" :=
  ⟨best_time_to_visit_spec.2.1 "Asia" "JP" _ (by decide),
   best_time_to_visit_spec.2.1 "Europe" "JP" _ (by decide),
   best_time_to_visit_spec.2.2 "Asia" "XX" (by decide)⟩

/-- C9: the result of `get_coordinates` is independent of its
`country_code` argument — for any fixed city and fixed upstream
responses, two calls differing only in the country code return the same
coordinates (the argument is accepted but never used in the request). -/
theorem get_coordinates_ignores_country_code :
    ∀ (city cc1 cc2 : String) (env : String → GeoUpstream),
      get_coordinates city cc1 env = get_coordinates city cc2 env :=
  fun _ _ _ _ => rfl

/-- C10: when the weather API answers 2xx but the body lacks the
"current" object or any of its fields, the client does not fail: the
weather code defaults to 0 so the description is "Clear sky", and
temperature, humidity and wind speed default to 0 — a valid `Weather`
value, not an error. -/
theorem weather_defaults_when_current_missing :
    ∀ (lat lon : ℚ) (name : String),
      get_weather_for_location lat lon name (.ok none) =
        .ok { location := name, temperature_celsius := 0,
              weather_description := "Clear sky", humidity := 0,
              wind_speed_kmh := 0 } ∧
      get_weather_for_location lat lon name
          (.ok (some { temperature_2m := none, relative_humidity_2m := none,
                       weather_code := none, wind_speed_10m := none })) =
        .ok { location := name, temperature_celsius := 0,
              weather_description := "Clear sky", humidity := 0,
              wind_speed_kmh := 0 } :=
  fun _ _ _ => ⟨rfl, rfl⟩

/-- Sample raw country record (Japan) for concrete instantiations. -/
def rawJP : RawCountry :=
  { cca2 := some "JP", common_name := some "Japan", capital := some ["Tokyo"],
    region := some "Asia", population := some 125000000,
    currencies := some ["JPY"], languages := some ["Japanese"] }

/-- Raw country record with every field absent. -/
def rawEmpty : RawCountry :=
  { cca2 := none, common_name := none, capital := none, region := none,
    population := none, currencies := none, languages := none }

/-- Concrete environment: the country directory answers with Japan, the
geocoding search finds nothing, the weather service reports no current
data. -/
def envJP : Env :=
  { countries := fun _ => .ok rawJP, popular := .ok [rawJP],
    geocode := fun _ => .ok [], weather := .ok none }

/-- Concrete environment where every upstream call fails or misses. -/
def envMiss : Env :=
  { countries := fun _ => .notFound, popular := .ok [],
    geocode := fun _ => .httpError, weather := .httpError "boom" }

/-- Helper: `extract_list` never returns the empty list. -/
theorem extract_list_ne_nil (o : Option (List String)) : extract_list o ≠ [] := by
  rcases o with _ | (_ | ⟨x, t⟩) <;> simp [extract_list]

/-- C3: `get_coordinates` signals absence (`none`) instead of raising
when the geocoding call fails or returns no result, and both
orchestrators then fail with a 503 carrying the generic message
"Could not find coordinates for {capital}" (no upstream error detail). -/
theorem geocoding_absence_to_503 :
    (∀ (city cc : String) (env : String → GeoUpstream),
      env city = .httpError ∨ env city = .ok [] →
      get_coordinates city cc env = none) ∧
    (∀ (cc : String) (env : Env) (d : Destination), cc ≠ "" →
      get_destination_info (strUpper cc) env.countries = .ok d →
      get_coordinates d.capital (strUpper cc) env.geocode = none →
      get_travel_summary (some cc) env =
        .error ⟨503, "Could not find coordinates for " ++ d.capital⟩) ∧
    (∀ (name : String) (env : Env) (ds : List Destination) (d dest : Destination),
      get_destinations env.popular = .ok ds →
      ds.find? (fun x => name_matches (strStrip name) x.country_name) = some d →
      get_destination_info d.country_code env.countries = .ok dest →
      get_coordinates dest.capital d.country_code env.geocode = none →
      get_travel_summary_by_name name env =
        .error ⟨503, "Could not find coordinates for " ++ dest.capital⟩) := by
  refine ⟨fun city cc env h => ?_, fun cc env d hcc hdest hgeo => ?_,
    fun name env ds d dest h1 h2 hdest hgeo => ?_⟩
  · rcases h with h | h <;> simp [get_coordinates, h]
  · simp [get_travel_summary, travel_pipeline, hcc, hdest, hgeo]
  · simp [get_travel_summary_by_name, travel_pipeline, h1, h2, hdest, hgeo]

/-- C3 witness: with the directory answering Japan and the geocoding
search returning no results, `summaryByCode "JP"` is a 503 with the
generic message; and a geocoding transport error yields absence. -/
theorem geocoding_absence_to_503_witness :
    get_travel_summary (some "JP") envJP =
      .error ⟨503, "Could not find coordinates for Tokyo"⟩ ∧
    get_coordinates "Paris" "FR" envMiss.geocode = none :=
  ⟨geocoding_absence_to_503.2.1 "JP" envJP (mk_destination rawJP)
      (by decide) rfl rfl,
   geocoding_absence_to_503.1 "Paris" "FR" envMiss.geocode (Or.inl rfl)⟩

/-- C4: `summaryByName` strips its input and matches it against the
popular destinations by case-insensitive substring in either direction,
with no upstream fallback: on a miss it fails with a 404 listing the
first 5 destination names; on a hit it runs the very pipeline
`summaryByCode` runs, at the matched code. -/
theorem summary_by_name_spec :
    (∀ (cc : String) (env : Env), cc ≠ "" →
      get_travel_summary (some cc) env = travel_pipeline (strUpper cc) env) ∧
    (∀ (q n : String), name_matches q n =
      (strIn (strLower q) (strLower n) || strIn (strLower n) (strLower q))) ∧
    (∀ (name : String) (env : Env) (ds : List Destination),
      get_destinations env.popular = .ok ds →
      (∀ d ∈ ds, ¬ (name_matches (strStrip name) d.country_name = true)) →
      get_travel_summary_by_name name env =
        .error ⟨404, "Country '" ++ strStrip name ++
          "' not found in destinations. Available countries: " ++
          pyJoin ", " ((ds.take 5).map (fun d => d.country_name)) ++ "..."⟩) ∧
    (∀ (name : String) (env : Env) (ds : List Destination) (d : Destination),
      get_destinations env.popular = .ok ds →
      ds.find? (fun x => name_matches (strStrip name) x.country_name) = some d →
      get_travel_summary_by_name name env = travel_pipeline d.country_code env) := by
  refine ⟨fun cc env hcc => ?_, fun q n => rfl,
    fun name env ds h1 h2 => ?_, fun name env ds d h1 h2 => ?_⟩
  · simp [get_travel_summary, hcc]
  · have hfind : ds.find? (fun x => name_matches (strStrip name) x.country_name)
        = none := List.find?_eq_none.mpr h2
    simp [get_travel_summary_by_name, h1, hfind]
  · simp [get_travel_summary_by_name, h1, h2]

/-- C4 witness: " japan " (needing a trim, case-insensitive) hits Japan
and delegates to the code pipeline at "JP"; "Atlantis" misses and yields
the 404 listing the known names. -/
theorem summary_by_name_spec_witness :
    get_travel_summary_by_name " japan " envJP = travel_pipeline "JP" envJP ∧
    get_travel_summary (some "jp") envJP = travel_pipeline "JP" envJP ∧
    get_travel_summary_by_name "Atlantis" envJP =
      .error ⟨404, "Country 'Atlantis' not found in destinations. Available countries: Japan..."⟩ := by
  refine ⟨?_, ?_, ?_⟩
  · exact summary_by_name_spec.2.2.2 " japan " envJP [mk_destination rawJP]
      (mk_destination rawJP) rfl (by decide)
  · exact summary_by_name_spec.1 "jp" envJP (by decide)
  · have h := summary_by_name_spec.2.2.1 "Atlantis" envJP [mk_destination rawJP]
      rfl (by intro d hd; rw [List.mem_singleton] at hd; subst hd; decide)
    exact h

/-- C6: `summaryByCode` fails with a 400 when the country code is
missing or empty, for every upstream environment (so before any upstream
call matters); and when the directory reports the code unknown (e.g.
"ZZ") it fails with a 404. -/
theorem summary_by_code_errors :
    (∀ env : Env, get_travel_summary none env =
      .error ⟨400, "country_code is required"⟩) ∧
    (∀ env : Env, get_travel_summary (some "") env =
      .error ⟨400, "country_code is required"⟩) ∧
    (∀ env : Env, env.countries "ZZ" = .notFound →
      get_travel_summary (some "ZZ") env =
        .error ⟨404, "Country ZZ not found"⟩) := by
  refine ⟨fun env => rfl, fun env => rfl, fun env h => ?_⟩
  have h2 : strUpper "ZZ" = "ZZ" := rfl
  simp [get_travel_summary, travel_pipeline, get_destination_info, h2, h]

/-- C6 witness: concrete runs at the all-miss environment. -/
theorem summary_by_code_errors_witness :
    get_travel_summary none envMiss =
      .error ⟨400, "country_code is required"⟩ ∧
    get_travel_summary (some "") envMiss =
      .error ⟨400, "country_code is required"⟩ ∧
    get_travel_summary (some "ZZ") envMiss =
      .error ⟨404, "Country ZZ not found"⟩ :=
  ⟨summary_by_code_errors.1 envMiss, summary_by_code_errors.2.1 envMiss,
   summary_by_code_errors.2.2 envMiss rfl⟩

/-- C7: for every code in the fixed popular set, when the directory
answers the request (keyed by the uppercased code) with a record whose
`cca2` uppercases to the same code, `getByCode` succeeds and the
returned `country_code`, uppercased, equals the input code uppercased. -/
theorem get_by_code_roundtrip :
    ∀ code ∈ popular_codes, ∀ (env : String → CountryUpstream)
      (raw : RawCountry) (c : String),
      env (strUpper code) = .ok raw → raw.cca2 = some c →
      strUpper c = strUpper code →
      get_destination_info code env = .ok (mk_destination raw) ∧
      strUpper (mk_destination raw).country_code = strUpper code := by
  intro code _ env raw c henv hc hup
  refine ⟨by simp [get_destination_info, henv], ?_⟩
  show strUpper (raw.cca2.getD "") = strUpper code
  rw [hc]
  exact hup

/-- C7 witness: the round-trip at code "JP" with the Japan record. -/
theorem get_by_code_roundtrip_witness :
    get_destination_info "JP" (fun _ => .ok rawJP) = .ok (mk_destination rawJP) ∧
    strUpper (mk_destination rawJP).country_code = strUpper "JP" :=
  get_by_code_roundtrip "JP" (by decide) (fun _ => .ok rawJP) rawJP "JP"
    rfl rfl rfl

/-- C8: every `Destination` constructed by `listPopular` or `getByCode`
has non-empty `currencies` and `languages`; an absent or empty (falsy)
upstream field becomes the single-element placeholder `["N/A"]`. -/
theorem destination_lists_nonempty :
    (∀ raw : RawCountry, (mk_destination raw).currencies ≠ [] ∧
      (mk_destination raw).languages ≠ []) ∧
    (∀ (env : BatchUpstream) (ds : List Destination),
      get_destinations env = .ok ds → ∀ d ∈ ds,
        d.currencies ≠ [] ∧ d.languages ≠ []) ∧
    (∀ (code : String) (env : String → CountryUpstream) (d : Destination),
      get_destination_info code env = .ok d →
        d.currencies ≠ [] ∧ d.languages ≠ []) ∧
    (∀ raw : RawCountry, (raw.currencies = none ∨ raw.currencies = some []) →
      (mk_destination raw).currencies = ["N/A"]) ∧
    (∀ raw : RawCountry, (raw.languages = none ∨ raw.languages = some []) →
      (mk_destination raw).languages = ["N/A"]) := by
  have base : ∀ raw : RawCountry, (mk_destination raw).currencies ≠ [] ∧
      (mk_destination raw).languages ≠ [] :=
    fun raw => ⟨extract_list_ne_nil _, extract_list_ne_nil _⟩
  refine ⟨base, fun env ds h d hd => ?_, fun code env d h => ?_,
    fun raw h => ?_, fun raw h => ?_⟩
  · rcases env with msg | data
    · simp [get_destinations] at h
    · simp only [get_destinations, Except.ok.injEq] at h
      subst h
      obtain ⟨raw, _, rfl⟩ := List.mem_map.mp hd
      exact base raw
  · revert h
    unfold get_destination_info
    rcases env (strUpper code) with _ | msg | data <;> intro h
    · simp at h
    · simp at h
    · simp only [Except.ok.injEq] at h
      subst h
      exact base data
  · show extract_list raw.currencies = ["N/A"]
    rcases h with h | h <;> rw [h] <;> rfl
  · show extract_list raw.languages = ["N/A"]
    rcases h with h | h <;> rw [h] <;> rfl

/-- C8 witness: an all-absent record gets both placeholders, and a
successful `getByCode` run yields non-empty lists. -/
theorem destination_lists_nonempty_witness :
    (mk_destination rawEmpty).currencies = ["N/A"] ∧
    (mk_destination rawEmpty).languages = ["N/A"] ∧
    ((mk_destination rawJP).currencies ≠ [] ∧
      (mk_destination rawJP).languages ≠ []) :=
  ⟨destination_lists_nonempty.2.2.2.1 rawEmpty (Or.inl rfl),
   destination_lists_nonempty.2.2.2.2 rawEmpty (Or.inl rfl),
   destination_lists_nonempty.2.2.1 "JP" (fun _ => .ok rawJP)
     (mk_destination rawJP) rfl⟩
